import Mathlib

/-!
# Verification of the ACE-Step sampling pipeline (`ace_step/pipeline_ace_step.py`)

A shallow embedding of the latent-diffusion sampling core of the
ACE-Step pipeline, together with theorems settling the spec claims.

Modelling conventions:

* A latent tensor `[batch, channel, feature, frame]` is a `Tensor4 α`:
  an explicit shape together with a total data function.  All arithmetic
  is exact (`ℚ`, or `ℝ` where trigonometry is involved); IEEE-float
  rounding and dtype casts (`.to(torch.float32)` etc.) are not modelled.
* The denoising predictor, the conditioning encoder and the scheduler's
  `step` function are external collaborators (spec §1, §4.2) and are
  modelled as abstract function parameters; the schedule itself is an
  abstract pair of `timesteps`/`sigmas` sequences.
* Python `int(...)` truncation toward zero is `truncQ`.
* A Python expression that raises (e.g. `torch.cat` applied to `None`)
  is modelled by an `Option` result being `none`.
-/

namespace AceStep

/-- Python `int(x)` on a float/rational: truncation toward zero. -/
def truncQ (q : ℚ) : ℤ := if 0 ≤ q then ⌊q⌋ else ⌈q⌉

/-! ## Tensors

4-dimensional latent tensors `[batch, channel=8, feature=16, frame]`
(spec §3).  The data function is total; entries outside the declared
shape are irrelevant (every operation below reads only in-bounds data
of its operands at in-bounds indices of its result). -/

@[ext]
structure Tensor4 (α : Type) where
  batch : ℕ
  chan : ℕ
  feat : ℕ
  frame : ℕ
  data : ℕ → ℕ → ℕ → ℕ → α

namespace Tensor4

variable {α : Type}

/-- Elementwise addition of same-shape tensors (shape of the left operand). -/
def add [Add α] (x y : Tensor4 α) : Tensor4 α :=
  { x with data := fun b c f k => x.data b c f k + y.data b c f k }

/-- Elementwise subtraction. -/
def sub [Sub α] (x y : Tensor4 α) : Tensor4 α :=
  { x with data := fun b c f k => x.data b c f k - y.data b c f k }

/-- Scalar multiplication (`s * tensor`). -/
def smul [Mul α] (s : α) (x : Tensor4 α) : Tensor4 α :=
  { x with data := fun b c f k => s * x.data b c f k }

instance [Add α] : Add (Tensor4 α) := ⟨add⟩
instance [Sub α] : Sub (Tensor4 α) := ⟨sub⟩
instance [Mul α] : SMul α (Tensor4 α) := ⟨smul⟩

/-- `torch.where(mask == v, x, y)`, elementwise selection. -/
def whereEq [DecidableEq α] (mask : Tensor4 α) (v : α) (x y : Tensor4 α) : Tensor4 α :=
  { x with data := fun b c f k =>
      if mask.data b c f k = v then x.data b c f k else y.data b c f k }

/-- `torch.cat([x, y], dim=-1)`: concatenation along the frame (time) axis. -/
def catFrame (x y : Tensor4 α) : Tensor4 α :=
  { x with
    frame := x.frame + y.frame
    data := fun b c f k =>
      if k < x.frame then x.data b c f k else y.data b c f (k - x.frame) }

/-- `torch.cat([x, y], dim=0)`: concatenation along the batch axis. -/
def catBatch (x y : Tensor4 α) : Tensor4 α :=
  { x with
    batch := x.batch + y.batch
    data := fun b c f k =>
      if b < x.batch then x.data b c f k else y.data (b - x.batch) c f k }

/-- `torch.nn.functional.pad(x, (n, 0), "constant", 0)` with an integer
amount `n`: pad the frame axis on the left with zeros (torch crops for
negative `n`). -/
def padFrameLeft [Zero α] (x : Tensor4 α) (n : ℤ) : Tensor4 α :=
  { x with
    frame := ((x.frame : ℤ) + n).toNat
    data := fun b c f k =>
      if 0 ≤ (k : ℤ) - n ∧ (k : ℤ) - n < x.frame then x.data b c f ((k : ℤ) - n).toNat
      else 0 }

/-- `torch.nn.functional.pad(x, (0, n), "constant", 0)`: pad the frame
axis on the right with zeros (torch crops for negative `n`). -/
def padFrameRight [Zero α] (x : Tensor4 α) (n : ℤ) : Tensor4 α :=
  { x with
    frame := ((x.frame : ℤ) + n).toNat
    data := fun b c f k => if (k : ℤ) < x.frame then x.data b c f k else 0 }

/-- `x[:, :, :, lo:hi]` for `0 ≤ lo ≤ hi ≤ x.frame` (the only form of
frame slicing the pipeline performs): frames `lo, lo+1, …, hi-1`. -/
def sliceFrame (x : Tensor4 α) (lo hi : ℕ) : Tensor4 α :=
  { x with
    frame := hi - lo
    data := fun b c f k => x.data b c f (lo + k) }

/-- A constant tensor of a given shape (stand-in for concrete inputs). -/
def const (b c f k : ℕ) (v : α) : Tensor4 α :=
  { batch := b, chan := c, feat := f, frame := k, data := fun _ _ _ _ => v }

end Tensor4

/-! ## Nearest-index lookup

`add_latents_noise` (pipeline lines 522–528) computes
`nearest_idx = torch.argmin(torch.cdist(indices, timesteps), dim=1)`:
the index of the schedule entry at minimal absolute distance from the
query value, ties resolved to the first occurrence (`torch.argmin`
returns the first minimal index). -/

/-- First index of `ts` minimizing `|q - ts[j]|`
(the `torch.argmin(torch.cdist(...))` of `add_latents_noise`). -/
def argminAbs (q : ℚ) : List ℚ → ℕ
  | [] => 0
  | t :: rest =>
    if rest = [] then 0
    else
      let r := argminAbs q rest
      if |q - rest.getD r 0| < |q - t| then r + 1 else 0

/-! ## Schedule interface (spec §4.2, external collaborator)

The schedule provider exposes a monotonically decreasing `timesteps`
sequence in `[0, 1000]` and aligned noise levels `sigmas`; the core
consumes them only through this interface. -/

structure Sched where
  timesteps : List ℚ
  sigmas : List ℚ
  num_train_timesteps : ℕ

/-- `add_latents_noise` (pipeline lines 514–533): pre-noise a reference
latent for audio2audio.  `indices = int(variance * num_train_timesteps)`
is a timestep *value*; the nearest schedule index to that value selects
the sigma; the result is `sigma * noise + (1 - sigma) * gt_latents`, and
the returned `init_timestep` is `indices[0]` — the query value itself,
not the selected schedule entry. -/
def add_latents_noise (gt_latents : Tensor4 ℚ) (variance : ℚ) (noise : Tensor4 ℚ)
    (s : Sched) : Tensor4 ℚ × ℚ :=
  let indices : ℤ := truncQ (variance * s.num_train_timesteps)
  let nearest_idx := argminAbs (indices : ℚ) s.timesteps
  let sigma := s.sigmas.getD nearest_idx 0
  (sigma • noise + (1 - sigma) • gt_latents, (indices : ℚ))

/-! ## Guidance configuration (pipeline lines 578–589, 785–786, 918–933) -/

/-- Lines 578–580: classifier-free guidance is disabled exactly when the
scale is 0.0 or 1.0. -/
def do_classifier_free_guidance (guidance_scale : ℚ) : Bool :=
  ¬(guidance_scale = 0 ∨ guidance_scale = 1)

/-- Lines 582–589: double-condition guidance is enabled iff both scales
are given (not `None`) and strictly exceed 1.0. -/
def do_double_condition_guidance (guidance_scale_text guidance_scale_lyric : Option ℚ) :
    Bool :=
  match guidance_scale_text, guidance_scale_lyric with
  | some t, some l => 1 < t ∧ 1 < l
  | _, _ => false

/-- Line 785: `start_idx = int(num_inference_steps * ((1 - guidance_interval) / 2))`. -/
def start_idx (num_inference_steps : ℕ) (guidance_interval : ℚ) : ℤ :=
  truncQ (num_inference_steps * ((1 - guidance_interval) / 2))

/-- Line 786: `end_idx = int(num_inference_steps * (guidance_interval / 2 + 0.5))`. -/
def end_idx (num_inference_steps : ℕ) (guidance_interval : ℚ) : ℤ :=
  truncQ (num_inference_steps * (guidance_interval / 2 + 1 / 2))

/-- Line 918: `is_in_guidance_interval = start_idx <= i < end_idx`. -/
def is_in_guidance_interval (num_inference_steps : ℕ) (guidance_interval : ℚ)
    (i : ℕ) : Bool :=
  start_idx num_inference_steps guidance_interval ≤ (i : ℤ) ∧
    (i : ℤ) < end_idx num_inference_steps guidance_interval

/-- Lines 923–925: the linear-decay progress denominator
`end_idx - start_idx - 1`. -/
def guidance_progress_divisor (num_inference_steps : ℕ) (guidance_interval : ℚ) : ℤ :=
  end_idx num_inference_steps guidance_interval -
    start_idx num_inference_steps guidance_interval - 1

/-! ## Per-step call trace (pipeline lines 902–1028)

For the control-flow claims only the *pattern* of predictor forward
passes and the identity of the guidance-fusion routine matter, so each
loop iteration of `text2music_diffusion_process` is abstracted to a
`StepTrace`, mirroring the branch structure of lines 918–1028. -/

inductive CfgType where
  | apg
  | cfg
  | cfgStar
deriving DecidableEq

inductive FusionKind where
  | doubleCond
  | apg
  | cfg
  | cfgStar
deriving DecidableEq

structure StepTrace where
  decode_calls : ℕ
  fusion : Option FusionKind
deriving DecidableEq

/-- The fusion routine selected by `cfg_type` (lines 996–1017). -/
def fusion_of_cfg_type : CfgType → FusionKind
  | .apg => .apg
  | .cfg => .cfg
  | .cfgStar => .cfgStar

/-- The forward-pass / fusion trace of one iteration of the text2music
step loop (lines 918–1028): inside the guidance window with CFG active,
one full-conditioning pass, an extra text-only pass iff double-condition
guidance is active (its encoder state, `encoder_hidden_states_no_lyric`,
is non-`None` iff double-condition guidance is on: lines 850–872), one
unconditional pass, then exactly one fusion — double-condition
superseding the `cfg_type` mode; otherwise a single pass with no
fusion. -/
def text2music_step_trace (num_inference_steps : ℕ) (guidance_interval : ℚ)
    (guidance_scale : ℚ) (cfg_type : CfgType)
    (guidance_scale_text guidance_scale_lyric : Option ℚ) (i : ℕ) : StepTrace :=
  let ddc := do_double_condition_guidance guidance_scale_text guidance_scale_lyric
  let has_no_lyric_cond := ddc
  if is_in_guidance_interval num_inference_steps guidance_interval i &&
      do_classifier_free_guidance guidance_scale then
    let text_pred := ddc && has_no_lyric_cond
    { decode_calls := 1 + (if text_pred then 1 else 0) + 1
      fusion := some (if ddc && text_pred then .doubleCond else fusion_of_cfg_type cfg_type) }
  else
    { decode_calls := 1, fusion := none }

/-! ## The step loop (pipeline lines 902–1052)

The loop state is the latent `target_latents`; the guided/unguided
predictor evaluation of one step (which returns `noise_pred` from
`target_latents` and per-step constants) and the scheduler's `step`
call are abstract functions of the step index and the latent. -/

structure LoopCtx where
  timesteps : List ℚ
  init_timestep : ℚ
  is_repaint : Bool
  n_min : ℕ
  x0 : Tensor4 ℚ
  z0 : Tensor4 ℚ
  zt_edit : Tensor4 ℚ
  repaint_mask : Tensor4 ℚ
  noise_pred : ℕ → Tensor4 ℚ → Tensor4 ℚ
  sched_step : ℕ → Tensor4 ℚ → Tensor4 ℚ → Tensor4 ℚ

/-- One iteration of the text2music step loop (lines 902–1052):
skip if `t > init_timestep`; under repaint skip before `n_min` and
re-initialize at `n_min`; compute the noise prediction; then either the
manual Euler update spliced by the repaint mask (lines 1030–1044) or the
scheduler step (lines 1045–1052). -/
def t2m_step (C : LoopCtx) (i : ℕ) (target_latents : Tensor4 ℚ) : Tensor4 ℚ :=
  if C.timesteps.getD i 0 > C.init_timestep then target_latents
  else if C.is_repaint ∧ i < C.n_min then target_latents
  else
    let t_i := C.timesteps.getD i 0 / 1000
    let target1 :=
      if C.is_repaint ∧ i = C.n_min then
        C.zt_edit + ((1 - t_i) • C.x0 + t_i • C.z0) - C.x0
      else target_latents
    let np := C.noise_pred i target1
    if C.is_repaint ∧ C.n_min ≤ i then
      let t_im1 := C.timesteps.getD (i + 1) 0 / 1000
      let prev_sample := target1 + (t_im1 - t_i) • np
      Tensor4.whereEq C.repaint_mask 1 prev_sample ((1 - t_im1) • C.x0 + t_im1 • C.z0)
    else C.sched_step i np target1

/-- Number of predictor forward evaluations iteration `i` performs:
`0` on a skipped iteration, `1` otherwise (mirrors the `continue`
branches of lines 903–908). -/
def t2m_step_pred_calls (C : LoopCtx) (i : ℕ) : ℕ :=
  if C.timesteps.getD i 0 > C.init_timestep then 0
  else if C.is_repaint ∧ i < C.n_min then 0
  else 1

/-- The latent after iterations `0, 1, …, i` of the step loop. -/
def t2m_after (C : LoopCtx) (t0 : Tensor4 ℚ) : ℕ → Tensor4 ℚ
  | 0 => t2m_step C 0 t0
  | i + 1 => t2m_step C (i + 1) (t2m_after C t0 i)

/-- The first loop index whose timestep does not exceed `init_timestep` —
the index at which the audio2audio loop actually begins. -/
def first_executed_idx (ts : List ℚ) (init_timestep : ℚ) : ℕ :=
  ts.findIdx (fun t => t ≤ init_timestep)

/-! ## Retake / repaint / extend setup (pipeline lines 661–776) -/

/-- Line 662: `n_min = int(infer_steps * (1 - retake_variance))`. -/
def retake_n_min (infer_steps : ℕ) (retake_variance : ℚ) : ℤ :=
  truncQ (infer_steps * (1 - retake_variance))

/-- Line 676: `is_repaint = repaint_end_frame - repaint_start_frame != frame_length`. -/
def is_repaint_flag (repaint_start_frame repaint_end_frame frame_length : ℤ) : Bool :=
  repaint_end_frame - repaint_start_frame ≠ frame_length

/-- Line 678: `is_extend = (repaint_start_frame < 0) or (repaint_end_frame > frame_length)`. -/
def is_extend_flag (repaint_start_frame repaint_end_frame frame_length : ℤ) : Bool :=
  repaint_start_frame < 0 ∨ frame_length < repaint_end_frame

/-- Lines 676–680: the final `is_repaint` (extend forces repaint). -/
def is_repaint_final (repaint_start_frame repaint_end_frame frame_length : ℤ) : Bool :=
  is_repaint_flag repaint_start_frame repaint_end_frame frame_length ||
    is_extend_flag repaint_start_frame repaint_end_frame frame_length

/-- Lines 663–665 and 685–688: the pure-retake quarter-sine noise blend
`cos(v) * target_latents + sin(v) * retake_latents`, where `v` is the
variance angle `retake_variance * π / 2`. -/
noncomputable def retake_blend (retake_variance_angle : ℝ)
    (target_latents retake_latents : Tensor4 ℝ) : Tensor4 ℝ :=
  Real.cos retake_variance_angle • target_latents +
    Real.sin retake_variance_angle • retake_latents

/-- Lines 691–694: the repaint mask — ones on `[repaint_start_frame,
repaint_end_frame)` along the frame axis, zeros elsewhere. -/
def repaint_mask_of (bsz frame_length : ℕ) (repaint_start_frame repaint_end_frame : ℤ) :
    Tensor4 ℚ :=
  { batch := bsz, chan := 8, feat := 16, frame := frame_length
    data := fun _ _ _ k =>
      if repaint_start_frame ≤ (k : ℤ) ∧ (k : ℤ) < repaint_end_frame then 1 else 0 }

/-- The loop context of a (non-extend) repaint run: `is_repaint` is
true, `zt_edit = x0.clone()` (line 702), `z0` is the repaint noise
(line 703), the mask spans `[repaint_start_frame, repaint_end_frame)`
(lines 691–694), and `init_timestep` stays at its default 1000
(line 778). -/
def repaint_ctx (ts : List ℚ) (bsz fl : ℕ)
    (repaint_start_frame repaint_end_frame : ℤ) (x0 z0 : Tensor4 ℚ)
    (np : ℕ → Tensor4 ℚ → Tensor4 ℚ)
    (ss : ℕ → Tensor4 ℚ → Tensor4 ℚ → Tensor4 ℚ) (n_min : ℕ) : LoopCtx :=
  { timesteps := ts, init_timestep := 1000, is_repaint := true, n_min := n_min,
    x0 := x0, z0 := z0, zt_edit := x0,
    repaint_mask := repaint_mask_of bsz fl repaint_start_frame repaint_end_frame,
    noise_pred := np, sched_step := ss }

/-- Line 709: `max_infer_fame_length = int(240 * 44100 / 512 / 8)`. -/
def max_infer_fame_length : ℤ := truncQ ((240 * 44100 : ℚ) / 512 / 8)

/-- Everything the extend branch (lines 704–776) establishes before the
loop: working source `x0 = gt_latents`, spliced working noise
`target_latents`, extend repaint mask, the cached slices, and the frame
bookkeeping. -/
structure ExtendSetup where
  x0 : Tensor4 ℚ
  target_latents : Tensor4 ℚ
  repaint_mask : Tensor4 ℚ
  to_left_pad_gt_latents : Option (Tensor4 ℚ)
  to_right_pad_gt_latents : Option (Tensor4 ℚ)
  frame_length : ℤ
  repaint_start_frame : ℤ
  repaint_end_frame : ℤ
  left_pad_frame_length : ℤ
  right_pad_frame_length : ℤ
  left_trim_length : ℤ
  right_trim_length : ℤ

/-- The extend setup, lines 704–776.  Left extension pads the source on
the left; if the padded length exceeds `max_infer_fame_length` the
tensor is trimmed to its first `max_infer_fame_length` frames and
`to_right_pad_gt_latents` caches the trailing `right_trim_length` frames
of the *trimmed* tensor.  Right extension is symmetric (keeping the last
`max_infer_fame_length` frames, caching the leading ones in
`to_left_pad_gt_latents`).  The working noise is spliced from retake
noise over the pad regions and the (trim-adjusted) fresh noise over the
interior. -/
def extend_setup (src_latents retake_latents target_latents : Tensor4 ℚ)
    (repaint_start_frame repaint_end_frame : ℤ) : ExtendSetup :=
  let src_latents_length : ℤ := src_latents.frame
  -- left-extension branch (lines 714–730)
  let L :=
    if repaint_start_frame < 0 then
      let left_pad_frame_length : ℤ := |repaint_start_frame|
      let frame_length := left_pad_frame_length + (src_latents.frame : ℤ)
      let extend_gt_latents := Tensor4.padFrameLeft src_latents left_pad_frame_length
      if max_infer_fame_length < frame_length then
        let right_trim_length := frame_length - max_infer_fame_length
        let e2 := Tensor4.sliceFrame extend_gt_latents 0 max_infer_fame_length.toNat
        let toRight := Tensor4.sliceFrame e2 (e2.frame - right_trim_length.toNat) e2.frame
        (e2, some toRight, max_infer_fame_length, (0 : ℤ), left_pad_frame_length,
          right_trim_length)
      else
        (extend_gt_latents, none, frame_length, (0 : ℤ), left_pad_frame_length, (0 : ℤ))
    else
      (src_latents, none, src_latents_length, repaint_start_frame, (0 : ℤ), (0 : ℤ))
  let gt_latents := L.1
  let to_right_pad_gt_latents := L.2.1
  let fl1 := L.2.2.1
  let rs1 := L.2.2.2.1
  let left_pad_frame_length := L.2.2.2.2.1
  let right_trim_length := L.2.2.2.2.2
  -- right-extension branch (lines 732–748); note the branch condition
  -- compares against the *original* source length
  let R :=
    if src_latents_length < repaint_end_frame then
      let right_pad_frame_length : ℤ := repaint_end_frame - (gt_latents.frame : ℤ)
      let frame_length := (gt_latents.frame : ℤ) + right_pad_frame_length
      let extend_gt_latents := Tensor4.padFrameRight gt_latents right_pad_frame_length
      if max_infer_fame_length < frame_length then
        let left_trim_length := frame_length - max_infer_fame_length
        let e2 := Tensor4.sliceFrame extend_gt_latents
          (extend_gt_latents.frame - max_infer_fame_length.toNat) extend_gt_latents.frame
        let toLeft := Tensor4.sliceFrame e2 0 left_trim_length.toNat
        (e2, some toLeft, max_infer_fame_length, max_infer_fame_length,
          right_pad_frame_length, left_trim_length)
      else
        (extend_gt_latents, none, frame_length, frame_length, right_pad_frame_length,
          (0 : ℤ))
    else
      (gt_latents, none, fl1, repaint_end_frame, (0 : ℤ), (0 : ℤ))
  let gt_latents := R.1
  let to_left_pad_gt_latents := R.2.1
  let frame_length := R.2.2.1
  let re1 := R.2.2.2.1
  let right_pad_frame_length := R.2.2.2.2.1
  let left_trim_length := R.2.2.2.2.2
  -- repaint mask over the pad regions (lines 750–756)
  let repaint_mask : Tensor4 ℚ :=
    { batch := src_latents.batch, chan := 8, feat := 16, frame := frame_length.toNat
      data := fun _ _ _ k =>
        if (k : ℤ) < left_pad_frame_length ∨
            (0 < right_pad_frame_length ∧ frame_length - right_pad_frame_length ≤ (k : ℤ))
        then 1 else 0 }
  -- working-noise splice (lines 758–771)
  let mid := Tensor4.sliceFrame target_latents left_trim_length.toNat
    (target_latents.frame - right_trim_length.toNat)
  let t1 :=
    if 0 < left_pad_frame_length then
      Tensor4.catFrame (Tensor4.sliceFrame retake_latents 0 left_pad_frame_length.toNat) mid
    else mid
  let t2 :=
    if 0 < right_pad_frame_length then
      Tensor4.catFrame t1 (Tensor4.sliceFrame retake_latents
        (retake_latents.frame - right_pad_frame_length.toNat) retake_latents.frame)
    else t1
  { x0 := gt_latents
    target_latents := t2
    repaint_mask := repaint_mask
    to_left_pad_gt_latents := to_left_pad_gt_latents
    to_right_pad_gt_latents := to_right_pad_gt_latents
    frame_length := frame_length
    repaint_start_frame := rs1
    repaint_end_frame := re1
    left_pad_frame_length := left_pad_frame_length
    right_pad_frame_length := right_pad_frame_length
    left_trim_length := left_trim_length
    right_trim_length := right_trim_length }

/-- The extend reassembly, lines 1054–1062, exactly as written: a cached
right slice is concatenated after the output along the frame axis; but
when a cached *left* slice exists the code concatenates
`to_right_pad_gt_latents` (not the left slice) along `dim=0` (the batch
axis) — and when `to_right_pad_gt_latents` is `None`, `torch.cat`
raises, modelled here as `none`. -/
def extend_reassembly (target_latents : Tensor4 ℚ)
    (to_right_pad_gt_latents to_left_pad_gt_latents : Option (Tensor4 ℚ)) :
    Option (Tensor4 ℚ) :=
  let t1 :=
    match to_right_pad_gt_latents with
    | some r => Tensor4.catFrame target_latents r
    | none => target_latents
  match to_left_pad_gt_latents with
  | none => some t1
  | some _ =>
    match to_right_pad_gt_latents with
    | some r => some (Tensor4.catBatch r t1)
    | none => none

/-! ## Flow-edit momentum-buffer routing (pipeline lines 225–317, 405–509)

`apg_forward` itself is an external module (`ace_step.apg_guidance`); for
the buffer-ownership claim only *which* buffer object each fusion call
receives matters.  `calc_v` forwards its `momentum_buffer` argument to
the source-trajectory fusion and `momentum_buffer_tar` to the
target-trajectory fusion; both parameters default to `None`. -/

inductive BufId where
  | src
  | tar
deriving DecidableEq

/-- Which buffer each APG fusion inside one `calc_v` call receives:
`none` = that fusion is not invoked at all; `some b` = invoked with
buffer argument `b` (itself an `Option BufId`, `Option.none` standing
for Python `None`). -/
structure CalcVBuffers where
  src_apg_buffer : Option (Option BufId)
  tar_apg_buffer : Option (Option BufId)
deriving DecidableEq

/-- The buffer routing of `calc_v` (lines 225–317): the source fusion
runs iff `return_src_pred` and CFG with `cfg_type == "apg"`, receiving
`momentum_buffer`; the target fusion runs iff CFG with
`cfg_type == "apg"`, receiving `momentum_buffer_tar`. -/
def calc_v_buffers (do_cfg : Bool) (cfg_type : CfgType)
    (momentum_buffer momentum_buffer_tar : Option BufId) (return_src_pred : Bool) :
    CalcVBuffers :=
  { src_apg_buffer :=
      if return_src_pred && do_cfg && (cfg_type = CfgType.apg : Bool) then
        some momentum_buffer
      else none
    tar_apg_buffer :=
      if do_cfg && (cfg_type = CfgType.apg : Bool) then some momentum_buffer_tar
      else none }

/-- The two `calc_v` call sites of `flowedit_diffusion_process`: the
dual-trajectory phase (`i < n_max`, lines 442–461) passes
`momentum_buffer=momentum_buffer` and leaves `momentum_buffer_tar` at
its default `None`; the tail phase (lines 483–503) passes
`momentum_buffer_tar=momentum_buffer_tar`, leaves `momentum_buffer` at
its default, and requests no source prediction. -/
def flowedit_step_buffers (do_cfg : Bool) (n_max : ℕ) (i : ℕ) : CalcVBuffers :=
  if i < n_max then
    calc_v_buffers do_cfg CfgType.apg (some BufId.src) none true
  else
    calc_v_buffers do_cfg CfgType.apg none (some BufId.tar) false

/-! ## Seeding (pipeline lines 145–177)

`set_seeds` normalizes `manual_seeds` (comma strings parse upstream into
an int or an int list; the processed form is modelled directly), then
seeds one generator per batch row; rows beyond an explicit list reuse
the last seed, and only a missing/empty input falls back to ambient
randomness (`torch.randint`, modelled by `fresh`). -/

inductive ManualSeeds where
  | none
  | int (n : ℤ)
  | list (l : List ℤ)

/-- Lines 146–157: `processed_input_seeds`. -/
def process_seeds : ManualSeeds → Option (ℤ ⊕ List ℤ)
  | ManualSeeds.none => Option.none
  | ManualSeeds.int n => some (Sum.inl n)
  | ManualSeeds.list l => if 0 < l.length then some (Sum.inr l) else Option.none

/-- Lines 162–175: the seed given to the generator of batch row `i`. -/
def seed_for_row (processed : Option (ℤ ⊕ List ℤ)) (fresh : ℕ → ℤ) (i : ℕ) : ℤ :=
  match processed with
  | Option.none => fresh i
  | some (Sum.inl n) => n
  | some (Sum.inr l) => if i < l.length then l.getD i 0 else l.getD (l.length - 1) 0

/-- `set_seeds` (lines 145–177): the list of generator seeds, one per
batch row. -/
def set_seeds (batch_size : ℕ) (manual_seeds : ManualSeeds) (fresh : ℕ → ℤ) : List ℤ :=
  (List.range batch_size).map (seed_for_row (process_seeds manual_seeds) fresh)

/-! # Theorems

First the basic lemma library about the embedded operations, then one
theorem per spec claim (with witnesses/counterexamples where due). -/

namespace Tensor4

variable {α : Type}

@[simp] theorem add_data [Add α] (x y : Tensor4 α) (b c f k : ℕ) :
    (x + y).data b c f k = x.data b c f k + y.data b c f k := rfl

@[simp] theorem sub_data [Sub α] (x y : Tensor4 α) (b c f k : ℕ) :
    (x - y).data b c f k = x.data b c f k - y.data b c f k := rfl

@[simp] theorem smul_data [Mul α] (s : α) (x : Tensor4 α) (b c f k : ℕ) :
    (s • x).data b c f k = s * x.data b c f k := rfl

@[simp] theorem add_batch [Add α] (x y : Tensor4 α) : (x + y).batch = x.batch := rfl
@[simp] theorem add_chan [Add α] (x y : Tensor4 α) : (x + y).chan = x.chan := rfl
@[simp] theorem add_feat [Add α] (x y : Tensor4 α) : (x + y).feat = x.feat := rfl
@[simp] theorem add_frame [Add α] (x y : Tensor4 α) : (x + y).frame = x.frame := rfl
@[simp] theorem sub_frame [Sub α] (x y : Tensor4 α) : (x - y).frame = x.frame := rfl
@[simp] theorem smul_batch [Mul α] (s : α) (x : Tensor4 α) : (s • x).batch = x.batch := rfl
@[simp] theorem smul_chan [Mul α] (s : α) (x : Tensor4 α) : (s • x).chan = x.chan := rfl
@[simp] theorem smul_feat [Mul α] (s : α) (x : Tensor4 α) : (s • x).feat = x.feat := rfl
@[simp] theorem smul_frame [Mul α] (s : α) (x : Tensor4 α) : (s • x).frame = x.frame := rfl

@[simp] theorem whereEq_data [DecidableEq α] (mask : Tensor4 α) (v : α)
    (x y : Tensor4 α) (b c f k : ℕ) :
    (whereEq mask v x y).data b c f k =
      if mask.data b c f k = v then x.data b c f k else y.data b c f k := rfl

@[simp] theorem catFrame_frame (x y : Tensor4 α) :
    (catFrame x y).frame = x.frame + y.frame := rfl

@[simp] theorem catFrame_batch (x y : Tensor4 α) :
    (catFrame x y).batch = x.batch := rfl

@[simp] theorem catBatch_batch (x y : Tensor4 α) :
    (catBatch x y).batch = x.batch + y.batch := rfl

@[simp] theorem catBatch_frame (x y : Tensor4 α) :
    (catBatch x y).frame = x.frame := rfl

@[simp] theorem sliceFrame_frame (x : Tensor4 α) (lo hi : ℕ) :
    (sliceFrame x lo hi).frame = hi - lo := rfl

@[simp] theorem sliceFrame_batch (x : Tensor4 α) (lo hi : ℕ) :
    (sliceFrame x lo hi).batch = x.batch := rfl

@[simp] theorem const_batch (b c f k : ℕ) (v : α) : (const b c f k v).batch = b := rfl
@[simp] theorem const_chan (b c f k : ℕ) (v : α) : (const b c f k v).chan = c := rfl
@[simp] theorem const_feat (b c f k : ℕ) (v : α) : (const b c f k v).feat = f := rfl
@[simp] theorem const_frame (b c f k : ℕ) (v : α) : (const b c f k v).frame = k := rfl
@[simp] theorem const_data (b c f k : ℕ) (v : α) (b' c' f' k' : ℕ) :
    (const b c f k v).data b' c' f' k' = v := rfl

end Tensor4

/-! ## Properties of the nearest-index lookup -/

theorem argminAbs_cons (q t : ℚ) (rest : List ℚ) (h : rest ≠ []) :
    argminAbs q (t :: rest) =
      if |q - rest.getD (argminAbs q rest) 0| < |q - t| then
        argminAbs q rest + 1
      else 0 := by
  rw [argminAbs, if_neg h]

theorem argminAbs_lt_length (q : ℚ) (ts : List ℚ) (h : ts ≠ []) :
    argminAbs q ts < ts.length := by
  induction ts with
  | nil => exact absurd rfl h
  | cons t rest ih =>
    rcases rest with _ | ⟨u, rs⟩
    · simp [argminAbs]
    · rw [argminAbs_cons q t (u :: rs) (by simp)]
      by_cases hr : |q - (u :: rs).getD (argminAbs q (u :: rs)) 0| < |q - t|
      · simp only [hr, if_true, List.length_cons]
        exact Nat.succ_lt_succ (ih (by simp))
      · rw [if_neg hr]
        simp

theorem argminAbs_min (q : ℚ) (ts : List ℚ) (j : ℕ) (hj : j < ts.length) :
    |q - ts.getD (argminAbs q ts) 0| ≤ |q - ts.getD j 0| := by
  induction ts generalizing j with
  | nil => simp at hj
  | cons t rest ih =>
    rcases rest with _ | ⟨u, rs⟩
    · cases j with
      | zero => simp [argminAbs]
      | succ j' => simp at hj
    · rw [argminAbs_cons q t (u :: rs) (by simp)]
      by_cases hr : |q - (u :: rs).getD (argminAbs q (u :: rs)) 0| < |q - t|
      · simp only [hr, if_true, List.getD_cons_succ]
        cases j with
        | zero => simpa using le_of_lt hr
        | succ j' =>
          simp only [List.getD_cons_succ]
          exact ih j' (by simpa using hj)
      · simp only [hr, if_false, List.getD_cons_zero]
        push_neg at hr
        cases j with
        | zero => simp
        | succ j' =>
          simp only [List.getD_cons_succ]
          exact le_trans hr (ih j' (by simpa using hj))

theorem argminAbs_first (q : ℚ) (ts : List ℚ) (j : ℕ) (hj : j < argminAbs q ts) :
    |q - ts.getD (argminAbs q ts) 0| < |q - ts.getD j 0| := by
  induction ts generalizing j with
  | nil => simp [argminAbs] at hj
  | cons t rest ih =>
    rcases rest with _ | ⟨u, rs⟩
    · simp [argminAbs] at hj
    · rw [argminAbs_cons q t (u :: rs) (by simp)] at hj ⊢
      by_cases hr : |q - (u :: rs).getD (argminAbs q (u :: rs)) 0| < |q - t|
      · simp only [hr, if_true, List.getD_cons_succ] at hj ⊢
        cases j with
        | zero => simpa using hr
        | succ j' =>
          simp only [List.getD_cons_succ]
          exact ih j' (by omega)
      · rw [if_neg hr] at hj
        omega

/-- C8: the nearest-index lookup used for audio2audio's sigma selection
returns, for every query and non-empty schedule, the index minimizing
absolute distance to the query, ties broken by first occurrence; in
particular for the schedule `[1000, 750, 500, 250, 0]` and query `600`
it returns index `2`. -/
theorem nearest_index_lookup_correct (q : ℚ) (ts : List ℚ) (h : ts ≠ []) :
    argminAbs q ts < ts.length ∧
    (∀ j, j < ts.length → |q - ts.getD (argminAbs q ts) 0| ≤ |q - ts.getD j 0|) ∧
    (∀ j, j < argminAbs q ts → |q - ts.getD (argminAbs q ts) 0| < |q - ts.getD j 0|) ∧
    argminAbs 600 [1000, 750, 500, 250, 0] = 2 :=
  ⟨argminAbs_lt_length q ts h, fun j hj => argminAbs_min q ts j hj,
   fun j hj => argminAbs_first q ts j hj, by
    simp [argminAbs, List.getD]
    norm_num⟩

/-- Witness for C8 at the schedule `[1000, 750, 500, 250, 0]`, query 600. -/
theorem nearest_index_lookup_correct_witness :
    (([1000, 750, 500, 250, 0] : List ℚ) ≠ []) ∧
    (argminAbs 600 [1000, 750, 500, 250, 0] <
        ([1000, 750, 500, 250, 0] : List ℚ).length ∧
      (∀ j, j < ([1000, 750, 500, 250, 0] : List ℚ).length →
        |(600 : ℚ) - ([1000, 750, 500, 250, 0] : List ℚ).getD
            (argminAbs 600 [1000, 750, 500, 250, 0]) 0| ≤
          |(600 : ℚ) - ([1000, 750, 500, 250, 0] : List ℚ).getD j 0|) ∧
      (∀ j, j < argminAbs 600 [1000, 750, 500, 250, 0] →
        |(600 : ℚ) - ([1000, 750, 500, 250, 0] : List ℚ).getD
            (argminAbs 600 [1000, 750, 500, 250, 0]) 0| <
          |(600 : ℚ) - ([1000, 750, 500, 250, 0] : List ℚ).getD j 0|) ∧
      argminAbs 600 [1000, 750, 500, 250, 0] = 2) :=
  ⟨by simp, nearest_index_lookup_correct 600 [1000, 750, 500, 250, 0] (by simp)⟩

/-! ## Guidance-interval decay divisor (claim C10) -/

theorem truncQ_of_nonneg (q : ℚ) (h : 0 ≤ q) : truncQ q = ⌊q⌋ := if_pos h

/-- C10 counterexample: with `num_inference_steps = 2` and
`guidance_interval = 0.5` the guidance window is `[0, 1)` — it contains
the executed step `i = 0` (one predictor call, not skipped: in a plain
text2music run `init_timestep = 1000` and `timesteps[0] = 1000`), yet
the linear-decay progress divisor `end_idx - start_idx - 1` is zero, so
the claimed division-by-zero safety fails. -/
theorem guidance_divisor_zero_counterexample :
    start_idx 2 (1 / 2) = 0 ∧ end_idx 2 (1 / 2) = 1 ∧
    is_in_guidance_interval 2 (1 / 2) 0 = true ∧
    t2m_step_pred_calls
      { timesteps := [1000, 500], init_timestep := 1000, is_repaint := false,
        n_min := 0, x0 := Tensor4.const 1 8 16 4 0, z0 := Tensor4.const 1 8 16 4 0,
        zt_edit := Tensor4.const 1 8 16 4 0, repaint_mask := Tensor4.const 1 8 16 4 0,
        noise_pred := fun _ x => x, sched_step := fun _ _ x => x } 0 = 1 ∧
    guidance_progress_divisor 2 (1 / 2) = 0 := by
  have hs : start_idx 2 (1 / 2) = 0 := by
    norm_num [start_idx, truncQ]
  have he : end_idx 2 (1 / 2) = 1 := by
    norm_num [end_idx, truncQ]
  refine ⟨hs, he, ?_, ?_, ?_⟩
  · simp only [is_in_guidance_interval, hs, he]
    decide
  · norm_num [t2m_step_pred_calls]
  · simp only [guidance_progress_divisor]
    rw [hs, he]
    decide

/-- C10 (amended): the decay divisor `end_idx - start_idx - 1` is
positive whenever `num_inference_steps * guidance_interval ≥ 3` (with
`guidance_interval ∈ [0, 1]`); the window may contain exactly one
executed step for smaller configurations (see the counterexample), where
the guidance-scale computation divides by zero. -/
theorem guidance_divisor_pos (num_inference_steps : ℕ) (guidance_interval : ℚ)
    (h0 : 0 ≤ guidance_interval) (h1 : guidance_interval ≤ 1)
    (h3 : 3 ≤ (num_inference_steps : ℚ) * guidance_interval) :
    1 ≤ guidance_progress_divisor num_inference_steps guidance_interval := by
  set n : ℕ := num_inference_steps
  set gi : ℚ := guidance_interval
  have hnn : (0 : ℚ) ≤ (n : ℚ) := Nat.cast_nonneg n
  have hs : start_idx n gi = ⌊(n : ℚ) * ((1 - gi) / 2)⌋ := by
    apply truncQ_of_nonneg
    have : (0 : ℚ) ≤ (1 - gi) / 2 := by linarith
    positivity
  have he : end_idx n gi = ⌊(n : ℚ) * (gi / 2 + 1 / 2)⌋ := by
    apply truncQ_of_nonneg
    have : (0 : ℚ) ≤ gi / 2 + 1 / 2 := by linarith
    positivity
  have hle : ((start_idx n gi : ℤ) : ℚ) ≤ (n : ℚ) * ((1 - gi) / 2) := by
    rw [hs]
    exact Int.floor_le _
  have hgt : (n : ℚ) * (gi / 2 + 1 / 2) - 1 < ((end_idx n gi : ℤ) : ℚ) := by
    rw [he]
    exact Int.sub_one_lt_floor _
  have hkey : ((start_idx n gi : ℤ) : ℚ) + 2 < ((end_idx n gi : ℤ) : ℚ) := by
    nlinarith
  have : start_idx n gi + 2 < end_idx n gi := by exact_mod_cast hkey
  simp only [guidance_progress_divisor]
  omega

/-- Witness for C10 (amended) at `num_inference_steps = 10`,
`guidance_interval = 1/2`. -/
theorem guidance_divisor_pos_witness :
    ((0 : ℚ) ≤ 1 / 2 ∧ (1 / 2 : ℚ) ≤ 1 ∧ (3 : ℚ) ≤ (10 : ℕ) * (1 / 2 : ℚ)) ∧
    1 ≤ guidance_progress_divisor 10 (1 / 2) :=
  ⟨⟨by norm_num, by norm_num, by norm_num⟩,
   guidance_divisor_pos 10 (1 / 2) (by norm_num) (by norm_num) (by norm_num)⟩

/-! ## Guidance branch selection (claims C5 and C6) -/

theorem do_double_condition_guidance_iff (gst gsl : Option ℚ) :
    do_double_condition_guidance gst gsl = true ↔
      (∃ t, gst = some t ∧ 1 < t) ∧ (∃ l, gsl = some l ∧ 1 < l) := by
  cases gst with
  | none => simp [do_double_condition_guidance]
  | some t =>
    cases gsl with
    | none => simp [do_double_condition_guidance]
    | some l =>
      simp [do_double_condition_guidance]

/-- C5: with `guidance_scale` equal to 0.0 or 1.0, classifier-free
guidance is treated as disabled and every loop iteration takes the
no-guidance branch — one predictor forward pass and no guidance-fusion
call, at every step. -/
theorem guidance_disabled_single_pass (num_inference_steps : ℕ)
    (guidance_interval guidance_scale : ℚ) (cfg_type : CfgType)
    (guidance_scale_text guidance_scale_lyric : Option ℚ)
    (h : guidance_scale = 0 ∨ guidance_scale = 1) :
    do_classifier_free_guidance guidance_scale = false ∧
    ∀ i, text2music_step_trace num_inference_steps guidance_interval guidance_scale
        cfg_type guidance_scale_text guidance_scale_lyric i =
      { decode_calls := 1, fusion := none } := by
  have hd : do_classifier_free_guidance guidance_scale = false := by
    simp only [do_classifier_free_guidance, decide_eq_false_iff_not, not_not]
    exact h
  refine ⟨hd, fun i => ?_⟩
  simp [text2music_step_trace, hd]

/-- Witness for C5 at `guidance_scale = 1`, ten steps. -/
theorem guidance_disabled_single_pass_witness :
    ((1 : ℚ) = 0 ∨ (1 : ℚ) = 1) ∧
    (do_classifier_free_guidance 1 = false ∧
      ∀ i, text2music_step_trace 10 (1 / 2) 1 CfgType.apg Option.none Option.none i =
        { decode_calls := 1, fusion := none }) :=
  ⟨Or.inr rfl,
   guidance_disabled_single_pass 10 (1 / 2) 1 CfgType.apg Option.none Option.none
     (Or.inr rfl)⟩

/-- C6: at a guided step (inside the guidance window with CFG active),
double-condition guidance is applied iff both `guidance_scale_text` and
`guidance_scale_lyric` are non-`None` and exceed 1.0, and when applied
it supersedes the configured `cfg_type` fusion (the per-mode fusion is
not the one invoked). -/
theorem double_condition_guidance_iff_scales (num_inference_steps : ℕ)
    (guidance_interval guidance_scale : ℚ) (cfg_type : CfgType)
    (guidance_scale_text guidance_scale_lyric : Option ℚ) (i : ℕ)
    (hin : is_in_guidance_interval num_inference_steps guidance_interval i = true)
    (hcfg : do_classifier_free_guidance guidance_scale = true) :
    ((text2music_step_trace num_inference_steps guidance_interval guidance_scale
        cfg_type guidance_scale_text guidance_scale_lyric i).fusion =
        some FusionKind.doubleCond ↔
      (∃ t, guidance_scale_text = some t ∧ 1 < t) ∧
        (∃ l, guidance_scale_lyric = some l ∧ 1 < l)) ∧
    (do_double_condition_guidance guidance_scale_text guidance_scale_lyric = true →
      (text2music_step_trace num_inference_steps guidance_interval guidance_scale
          cfg_type guidance_scale_text guidance_scale_lyric i).fusion ≠
        some (fusion_of_cfg_type cfg_type)) := by
  by_cases hd :
      do_double_condition_guidance guidance_scale_text guidance_scale_lyric = true
  · constructor
    · rw [← do_double_condition_guidance_iff]
      simp [text2music_step_trace, hin, hcfg, hd]
    · intro _
      simp only [text2music_step_trace, hin, hcfg, hd]
      cases cfg_type <;> simp [fusion_of_cfg_type]
  · have hd' : do_double_condition_guidance guidance_scale_text guidance_scale_lyric
        = false := by
      simpa using hd
    constructor
    · rw [← do_double_condition_guidance_iff]
      simp only [text2music_step_trace, hin, hcfg, hd', hd]
      cases cfg_type <;> simp [fusion_of_cfg_type, hd']
    · intro hc
      exact absurd hc hd

/-- Witness for C6 at a concrete guided step with both scales `= 2`. -/
theorem double_condition_guidance_iff_scales_witness :
    (is_in_guidance_interval 10 (1 / 2) 4 = true ∧
      do_classifier_free_guidance 15 = true) ∧
    (((text2music_step_trace 10 (1 / 2) 15 CfgType.apg (some 2) (some 2) 4).fusion =
        some FusionKind.doubleCond ↔
      (∃ t, (some (2 : ℚ)) = some t ∧ 1 < t) ∧
        (∃ l, (some (2 : ℚ)) = some l ∧ 1 < l)) ∧
    (do_double_condition_guidance (some 2) (some 2) = true →
      (text2music_step_trace 10 (1 / 2) 15 CfgType.apg (some 2) (some 2) 4).fusion ≠
        some (fusion_of_cfg_type CfgType.apg))) := by
  have h1 : is_in_guidance_interval 10 (1 / 2) 4 = true := by
    have hs : start_idx 10 (1 / 2) = 2 := by norm_num [start_idx, truncQ]
    have he : end_idx 10 (1 / 2) = 7 := by norm_num [end_idx, truncQ]
    simp only [is_in_guidance_interval, hs, he]
    decide
  have h2 : do_classifier_free_guidance 15 = true := by
    simp [do_classifier_free_guidance]
  exact ⟨⟨h1, h2⟩,
    double_condition_guidance_iff_scales 10 (1 / 2) 15 CfgType.apg (some 2) (some 2) 4
      h1 h2⟩

/-! ## Flow-edit momentum-buffer routing (claim C2) -/

/-- C2 counterexample: at a guided dual-phase step (`i = 0 < n_max = 30`,
CFG active, APG fusion) the buffer handed to the *target* trajectory's
APG fusion is Python `None` — not the target momentum buffer — because
the dual-phase `calc_v` call leaves `momentum_buffer_tar` at its
default. -/
theorem flowedit_target_buffer_counterexample :
    (flowedit_step_buffers true 30 0).tar_apg_buffer = some Option.none ∧
    (some (Option.none : Option BufId) : Option (Option BufId)) ≠
      some (some BufId.tar) := by
  constructor
  · rfl
  · decide

/-- C2 (amended): the two momentum buffers are distinct and never
shared between trajectories, but only the source fusion receives its
buffer during the dual-trajectory phase — the target fusion receives
`None` there, and receives the target buffer (while the source fusion is
not run) during the tail phase. -/
theorem flowedit_buffer_routing (n_max i : ℕ) :
    (i < n_max →
      (flowedit_step_buffers true n_max i).src_apg_buffer = some (some BufId.src) ∧
      (flowedit_step_buffers true n_max i).tar_apg_buffer = some Option.none) ∧
    (n_max ≤ i →
      (flowedit_step_buffers true n_max i).src_apg_buffer = Option.none ∧
      (flowedit_step_buffers true n_max i).tar_apg_buffer = some (some BufId.tar)) := by
  constructor
  · intro h
    simp [flowedit_step_buffers, calc_v_buffers, h]
  · intro h
    have h' : ¬ i < n_max := by omega
    simp [flowedit_step_buffers, calc_v_buffers, h']

/-- Witness for C2 (amended) at `n_max = 30`, steps `0` and `30`. -/
theorem flowedit_buffer_routing_witness :
    ((0 < 30 ∧
      (flowedit_step_buffers true 30 0).src_apg_buffer = some (some BufId.src) ∧
      (flowedit_step_buffers true 30 0).tar_apg_buffer = some Option.none) ∧
     (30 ≤ 30 ∧
      (flowedit_step_buffers true 30 30).src_apg_buffer = Option.none ∧
      (flowedit_step_buffers true 30 30).tar_apg_buffer = some (some BufId.tar))) :=
  ⟨⟨by decide, (flowedit_buffer_routing 30 0).1 (by decide)⟩,
   ⟨by decide, (flowedit_buffer_routing 30 30).2 (by decide)⟩⟩

/-! ## Pure-retake quarter-sine blend (claim C7) -/

/-- C7: for a pure retake run (`repaint_end_frame - repaint_start_frame
= frame_length` and no extension, so `is_repaint` is false and no mask
is built), the working noise is `cos(v) * fresh + sin(v) * retake` with
`v = retake_variance * π/2`; at `retake_variance = 0` it equals the
fresh target noise exactly, at `retake_variance = 1` it equals the
retake noise exactly. -/
theorem pure_retake_blend_endpoints (repaint_start_frame repaint_end_frame
    frame_length : ℤ) (target_latents retake_latents : Tensor4 ℝ)
    (hspan : repaint_end_frame - repaint_start_frame = frame_length)
    (hext : is_extend_flag repaint_start_frame repaint_end_frame frame_length = false)
    (hb : target_latents.batch = retake_latents.batch)
    (hc : target_latents.chan = retake_latents.chan)
    (hf : target_latents.feat = retake_latents.feat)
    (hk : target_latents.frame = retake_latents.frame) :
    is_repaint_final repaint_start_frame repaint_end_frame frame_length = false ∧
    retake_blend ((0 : ℝ) * (Real.pi / 2)) target_latents retake_latents =
      target_latents ∧
    retake_blend ((1 : ℝ) * (Real.pi / 2)) target_latents retake_latents =
      retake_latents := by
  refine ⟨?_, ?_, ?_⟩
  · simp [is_repaint_final, is_repaint_flag, hspan, hext]
  · ext b c f k <;>
      simp [retake_blend]
  · have hcos : Real.cos ((1 : ℝ) * (Real.pi / 2)) = 0 := by
      rw [one_mul, Real.cos_pi_div_two]
    have hsin : Real.sin ((1 : ℝ) * (Real.pi / 2)) = 1 := by
      rw [one_mul, Real.sin_pi_div_two]
    ext b c f k
    · exact hb
    · exact hc
    · exact hf
    · exact hk
    · simp [retake_blend, hcos, hsin]

/-- Witness for C7 on concrete same-shape tensors with a full-clip span. -/
theorem pure_retake_blend_endpoints_witness :
    ((4 : ℤ) - 0 = 4 ∧ is_extend_flag 0 4 4 = false ∧
      (Tensor4.const 1 8 16 4 (3 : ℝ)).batch = (Tensor4.const 1 8 16 4 (5 : ℝ)).batch) ∧
    (is_repaint_final 0 4 4 = false ∧
     retake_blend ((0 : ℝ) * (Real.pi / 2)) (Tensor4.const 1 8 16 4 (3 : ℝ))
        (Tensor4.const 1 8 16 4 (5 : ℝ)) = Tensor4.const 1 8 16 4 (3 : ℝ) ∧
     retake_blend ((1 : ℝ) * (Real.pi / 2)) (Tensor4.const 1 8 16 4 (3 : ℝ))
        (Tensor4.const 1 8 16 4 (5 : ℝ)) = Tensor4.const 1 8 16 4 (5 : ℝ)) :=
  ⟨⟨by decide, by decide, rfl⟩,
   pure_retake_blend_endpoints 0 4 4 (Tensor4.const 1 8 16 4 3)
     (Tensor4.const 1 8 16 4 5) (by decide) (by decide) rfl rfl rfl rfl⟩

/-! ## Seeding determinism (claim C9) -/

/-- C9: with explicit seeds supplied (`processed_input_seeds` not
`None`), the per-row generator seeds do not depend on the ambient
randomness source at all, so any deterministic pipeline consuming the
generators (predictor and encoder being deterministic functions)
produces bit-identical output latents across two invocations; moreover
with a seed list the generator of batch row `i` is seeded 1:1 from entry
`i` of the list. -/
theorem fixed_seeds_determinism (batch_size : ℕ) (manual_seeds : ManualSeeds)
    (fresh₁ fresh₂ : ℕ → ℤ) (pipeline : List ℤ → Tensor4 ℚ)
    (h : process_seeds manual_seeds ≠ Option.none) :
    pipeline (set_seeds batch_size manual_seeds fresh₁) =
      pipeline (set_seeds batch_size manual_seeds fresh₂) ∧
    (∀ l i, manual_seeds = ManualSeeds.list l → i < batch_size → i < l.length →
      (set_seeds batch_size manual_seeds fresh₁).getD i 0 = l.getD i 0) := by
  have hrow : ∀ i, seed_for_row (process_seeds manual_seeds) fresh₁ i =
      seed_for_row (process_seeds manual_seeds) fresh₂ i := by
    intro i
    cases hp : process_seeds manual_seeds with
    | none => exact absurd hp h
    | some v =>
      cases v with
      | inl n => simp [seed_for_row]
      | inr l => simp [seed_for_row]
  have hset : set_seeds batch_size manual_seeds fresh₁ =
      set_seeds batch_size manual_seeds fresh₂ := by
    simp only [set_seeds]
    exact List.map_congr_left (fun i _ => hrow i)
  refine ⟨by rw [hset], ?_⟩
  intro l i hms hib hil
  subst hms
  have hl : 0 < l.length := Nat.lt_of_le_of_lt (Nat.zero_le i) hil
  have hp : process_seeds (ManualSeeds.list l) = some (Sum.inr l) := by
    simp [process_seeds, hl]
  simp only [set_seeds, hp]
  have hget : ((List.range batch_size).map
      (seed_for_row (some (Sum.inr l)) fresh₁))[i]? = some (l.getD i 0) := by
    rw [List.getElem?_map, List.getElem?_range hib]
    simp [seed_for_row, hil]
  rw [List.getD_eq_getElem?_getD, hget]
  rfl

/-- Witness for C9 with seeds `[5, 7]`, batch 2, two different ambient
randomness sources, and a pipeline reading the first generator. -/
theorem fixed_seeds_determinism_witness :
    (process_seeds (ManualSeeds.list [5, 7]) ≠ Option.none) ∧
    ((fun s => Tensor4.const 1 1 1 1 ((s.getD 0 0 : ℤ) : ℚ))
        (set_seeds 2 (ManualSeeds.list [5, 7]) (fun n => (n : ℤ))) =
      (fun s => Tensor4.const 1 1 1 1 ((s.getD 0 0 : ℤ) : ℚ))
        (set_seeds 2 (ManualSeeds.list [5, 7]) (fun _ => (9 : ℤ))) ∧
     (∀ l i, ManualSeeds.list [5, 7] = ManualSeeds.list l → i < 2 → i < l.length →
       (set_seeds 2 (ManualSeeds.list [5, 7]) (fun n => (n : ℤ))).getD i 0 =
         l.getD i 0)) :=
  ⟨by simp [process_seeds],
   fixed_seeds_determinism 2 (ManualSeeds.list [5, 7]) (fun n => (n : ℤ))
     (fun _ => (9 : ℤ)) (fun s => Tensor4.const 1 1 1 1 ((s.getD 0 0 : ℤ) : ℚ))
     (by simp [process_seeds])⟩

/-! ## Audio2audio pre-noise and loop start (claim C3) -/

/-- C3 counterexample: with schedule `[1000, 750, 500, 250, 0]` and
noise fraction `0.74` (query value 740), the nearest schedule index is
`1` (timestep 750), but iteration 1 is skipped outright (`t = 750 >
init_timestep = 740`: latent unchanged, no predictor call), and the
loop instead begins at index 2 — the code's `init_timestep` is the
query value itself, not the nearest timestep, so the loop does not
begin at the nearest index. -/
theorem audio2audio_start_counterexample :
    (add_latents_noise (Tensor4.const 1 8 16 4 1) (74 / 100) (Tensor4.const 1 8 16 4 2)
        { timesteps := [1000, 750, 500, 250, 0],
          sigmas := [1, 3 / 4, 1 / 2, 1 / 4, 0],
          num_train_timesteps := 1000 }).2 = 740 ∧
    argminAbs 740 [1000, 750, 500, 250, 0] = 1 ∧
    first_executed_idx [1000, 750, 500, 250, 0] 740 = 2 ∧
    (2 : ℕ) ≠ 1 ∧
    t2m_step
      { timesteps := [1000, 750, 500, 250, 0], init_timestep := 740,
        is_repaint := false, n_min := 0, x0 := Tensor4.const 1 8 16 4 0,
        z0 := Tensor4.const 1 8 16 4 0, zt_edit := Tensor4.const 1 8 16 4 0,
        repaint_mask := Tensor4.const 1 8 16 4 0,
        noise_pred := fun _ x => x, sched_step := fun _ _ x => x } 1
      (Tensor4.const 1 8 16 4 5) = Tensor4.const 1 8 16 4 5 ∧
    t2m_step_pred_calls
      { timesteps := [1000, 750, 500, 250, 0], init_timestep := 740,
        is_repaint := false, n_min := 0, x0 := Tensor4.const 1 8 16 4 0,
        z0 := Tensor4.const 1 8 16 4 0, zt_edit := Tensor4.const 1 8 16 4 0,
        repaint_mask := Tensor4.const 1 8 16 4 0,
        noise_pred := fun _ x => x, sched_step := fun _ _ x => x } 1 = 0 := by
  refine ⟨?_, ?_, ?_, by decide, ?_, ?_⟩
  · norm_num [add_latents_noise, truncQ]
  · simp [argminAbs, List.getD]
    norm_num
  · norm_num [first_executed_idx, List.findIdx, List.findIdx.go]
  · simp only [t2m_step, List.getD]
    norm_num
  · simp only [t2m_step_pred_calls, List.getD]
    norm_num

/-- C3 (amended): the pre-noise step picks the schedule index nearest
to the query value `int((1 - ref_audio_strength) * 1000)` and blends
reference latent and fresh noise linearly by that index's sigma; the
returned `init_timestep` is the *query value itself* (not the nearest
timestep), every iteration whose timestep exceeds that query value is
skipped entirely (no predictor call, latent unchanged), every iteration
whose timestep does not exceed it runs, and hence the loop begins at
the first schedule index whose timestep is at most the query value —
which is the nearest index only when that index's timestep does not
exceed the query. -/
theorem audio2audio_prenoise_and_skip (gt_latents noise : Tensor4 ℚ) (variance : ℚ)
    (s : Sched) (C : LoopCtx)
    (hrep : C.is_repaint = false)
    (hinit : C.init_timestep = (add_latents_noise gt_latents variance noise s).2) :
    (add_latents_noise gt_latents variance noise s).1 =
      s.sigmas.getD
          (argminAbs ((truncQ (variance * s.num_train_timesteps) : ℤ) : ℚ) s.timesteps)
          0 • noise +
        (1 - s.sigmas.getD
          (argminAbs ((truncQ (variance * s.num_train_timesteps) : ℤ) : ℚ) s.timesteps)
          0) • gt_latents ∧
    (add_latents_noise gt_latents variance noise s).2 =
      ((truncQ (variance * s.num_train_timesteps) : ℤ) : ℚ) ∧
    (∀ i x, C.init_timestep < C.timesteps.getD i 0 →
      t2m_step C i x = x ∧ t2m_step_pred_calls C i = 0) ∧
    (∀ i, C.timesteps.getD i 0 ≤ C.init_timestep → t2m_step_pred_calls C i = 1) ∧
    (∀ j, j < first_executed_idx C.timesteps C.init_timestep →
      C.init_timestep < C.timesteps.getD j 0) ∧
    (first_executed_idx C.timesteps C.init_timestep < C.timesteps.length →
      C.timesteps.getD (first_executed_idx C.timesteps C.init_timestep) 0 ≤
        C.init_timestep) := by
  refine ⟨rfl, rfl, ?_, ?_, ?_, ?_⟩
  · intro i x hskip
    constructor
    · rw [t2m_step, if_pos hskip]
    · rw [t2m_step_pred_calls, if_pos hskip]
  · intro i hrun
    rw [t2m_step_pred_calls, if_neg (not_lt.mpr hrun), if_neg]
    intro hcon
    rw [hrep] at hcon
    exact Bool.false_ne_true hcon.1
  · intro j hj
    have hjlen : j < C.timesteps.length :=
      lt_of_lt_of_le hj (List.findIdx_le_length _)
    have hnp := List.not_of_lt_findIdx hj
    rw [List.getD_eq_getElem _ _ hjlen]
    simpa using hnp
  · intro hlt
    have := @List.findIdx_getElem _ _ C.timesteps hlt
    rw [List.getD_eq_getElem _ _ hlt]
    simpa using this

/-- Witness for C3 (amended) at the concrete schedule
`[1000, 750, 500, 250, 0]`, fraction `0.74`. -/
theorem audio2audio_prenoise_and_skip_witness :
    (({ timesteps := [1000, 750, 500, 250, 0], init_timestep := 740,
        is_repaint := false, n_min := 0, x0 := Tensor4.const 1 8 16 4 0,
        z0 := Tensor4.const 1 8 16 4 0, zt_edit := Tensor4.const 1 8 16 4 0,
        repaint_mask := Tensor4.const 1 8 16 4 0,
        noise_pred := fun _ x => x, sched_step := fun _ _ x => x } : LoopCtx).is_repaint
        = false ∧
     ({ timesteps := [1000, 750, 500, 250, 0], init_timestep := 740,
        is_repaint := false, n_min := 0, x0 := Tensor4.const 1 8 16 4 0,
        z0 := Tensor4.const 1 8 16 4 0, zt_edit := Tensor4.const 1 8 16 4 0,
        repaint_mask := Tensor4.const 1 8 16 4 0,
        noise_pred := fun _ x => x, sched_step := fun _ _ x => x } : LoopCtx).init_timestep
        = (add_latents_noise (Tensor4.const 1 8 16 4 1) (74 / 100)
            (Tensor4.const 1 8 16 4 2)
            { timesteps := [1000, 750, 500, 250, 0],
              sigmas := [1, 3 / 4, 1 / 2, 1 / 4, 0],
              num_train_timesteps := 1000 }).2) ∧
    ((add_latents_noise (Tensor4.const 1 8 16 4 1) (74 / 100)
        (Tensor4.const 1 8 16 4 2)
        { timesteps := [1000, 750, 500, 250, 0],
          sigmas := [1, 3 / 4, 1 / 2, 1 / 4, 0],
          num_train_timesteps := 1000 }).2 =
      ((truncQ ((74 / 100 : ℚ) * (1000 : ℕ)) : ℤ) : ℚ)) := by
  have hinit : (740 : ℚ) = (add_latents_noise (Tensor4.const 1 8 16 4 1) (74 / 100)
      (Tensor4.const 1 8 16 4 2)
      { timesteps := [1000, 750, 500, 250, 0],
        sigmas := [1, 3 / 4, 1 / 2, 1 / 4, 0],
        num_train_timesteps := 1000 }).2 := by
    norm_num [add_latents_noise, truncQ]
  refine ⟨⟨rfl, hinit⟩, ?_⟩
  exact (audio2audio_prenoise_and_skip (Tensor4.const 1 8 16 4 1)
      (Tensor4.const 1 8 16 4 2) (74 / 100)
      { timesteps := [1000, 750, 500, 250, 0],
        sigmas := [1, 3 / 4, 1 / 2, 1 / 4, 0],
        num_train_timesteps := 1000 }
      { timesteps := [1000, 750, 500, 250, 0], init_timestep := 740,
        is_repaint := false, n_min := 0, x0 := Tensor4.const 1 8 16 4 0,
        z0 := Tensor4.const 1 8 16 4 0, zt_edit := Tensor4.const 1 8 16 4 0,
        repaint_mask := Tensor4.const 1 8 16 4 0,
        noise_pred := fun _ x => x, sched_step := fun _ _ x => x }
      rfl hinit).2.1

/-! ## Repaint mask-splice invariant (claim C4) -/

/-- C4: in a repaint run, at every iteration `i ≥ n_min` the step ends
with the mask splice against the directly-interpolated preserved
trajectory, so after iteration `i` every position outside the repaint
span (mask 0) equals `(1 - t_{i+1}/1000) * x0 + (t_{i+1}/1000) * z0`
(with the timestep after the last step taken as 0); in particular,
after the final iteration the region outside the mask equals the source
latent `x0` exactly. -/
theorem repaint_outside_mask_invariant (ts : List ℚ) (bsz fl : ℕ)
    (repaint_start_frame repaint_end_frame : ℤ) (x0 z0 t0 : Tensor4 ℚ)
    (np : ℕ → Tensor4 ℚ → Tensor4 ℚ)
    (ss : ℕ → Tensor4 ℚ → Tensor4 ℚ → Tensor4 ℚ) (n_min : ℕ)
    (hts : ∀ t ∈ ts, t ≤ 1000) :
    ∀ i, n_min ≤ i → i < ts.length →
    ∀ b c f k : ℕ, ¬(repaint_start_frame ≤ (k : ℤ) ∧ (k : ℤ) < repaint_end_frame) →
      (t2m_after
          (repaint_ctx ts bsz fl repaint_start_frame repaint_end_frame x0 z0 np ss
            n_min) t0 i).data b c f k =
        (1 - ts.getD (i + 1) 0 / 1000) * x0.data b c f k +
          (ts.getD (i + 1) 0 / 1000) * z0.data b c f k ∧
      (i + 1 = ts.length →
        (t2m_after
            (repaint_ctx ts bsz fl repaint_start_frame repaint_end_frame x0 z0 np ss
              n_min) t0 i).data b c f k = x0.data b c f k) := by
  intro i h1 h2 b c f k hk
  set C := repaint_ctx ts bsz fl repaint_start_frame repaint_end_frame x0 z0 np ss n_min
    with hC
  have hle : ts.getD i 0 ≤ 1000 := by
    rw [List.getD_eq_getElem _ _ h2]
    exact hts _ (List.getElem_mem h2)
  have key : ∀ x, (t2m_step C i x).data b c f k =
      (1 - ts.getD (i + 1) 0 / 1000) * x0.data b c f k +
        (ts.getD (i + 1) 0 / 1000) * z0.data b c f k := by
    intro x
    rw [t2m_step]
    rw [if_neg (by simpa [hC, repaint_ctx] using not_lt.mpr hle)]
    rw [if_neg (by
      intro hcon
      exact absurd hcon.2 (not_lt.mpr (by simpa [hC, repaint_ctx] using h1)))]
    rw [if_pos (by
      refine ⟨by simp [hC, repaint_ctx], by simpa [hC, repaint_ctx] using h1⟩)]
    simp only [hC, repaint_ctx, Tensor4.whereEq_data, repaint_mask_of, hk, if_false,
      Tensor4.add_data, Tensor4.smul_data]
    norm_num
  have hstep : (t2m_after C t0 i) = t2m_step C i
      (match i with
       | 0 => t0
       | Nat.succ n => t2m_after C t0 n) := by
    cases i with
    | zero => rfl
    | succ n => rfl
  constructor
  · rw [hstep, key]
  · intro hlen
    rw [hstep, key]
    rw [List.getD_eq_default _ _ (le_of_eq hlen.symm)]
    ring

/-- Witness for C4 at a concrete two-step repaint run. -/
theorem repaint_outside_mask_invariant_witness :
    ((∀ t ∈ ([1000, 500] : List ℚ), t ≤ 1000) ∧ 0 ≤ 1 ∧ 1 < 2 ∧
      ¬((1 : ℤ) ≤ (0 : ℤ) ∧ (0 : ℤ) < 3)) ∧
    ((t2m_after
        (repaint_ctx [1000, 500] 1 4 1 3 (Tensor4.const 1 8 16 4 7)
          (Tensor4.const 1 8 16 4 9) (fun _ x => x) (fun _ _ x => x) 0)
        (Tensor4.const 1 8 16 4 2) 1).data 0 0 0 0 =
      (1 - ([1000, 500] : List ℚ).getD 2 0 / 1000) *
          (Tensor4.const 1 8 16 4 (7 : ℚ)).data 0 0 0 0 +
        (([1000, 500] : List ℚ).getD 2 0 / 1000) *
          (Tensor4.const 1 8 16 4 (9 : ℚ)).data 0 0 0 0 ∧
      (1 + 1 = ([1000, 500] : List ℚ).length →
        (t2m_after
            (repaint_ctx [1000, 500] 1 4 1 3 (Tensor4.const 1 8 16 4 7)
              (Tensor4.const 1 8 16 4 9) (fun _ x => x) (fun _ _ x => x) 0)
            (Tensor4.const 1 8 16 4 2) 1).data 0 0 0 0 =
          (Tensor4.const 1 8 16 4 (7 : ℚ)).data 0 0 0 0)) :=
  ⟨⟨by norm_num, by norm_num, by norm_num, by decide⟩,
   repaint_outside_mask_invariant [1000, 500] 1 4 1 3 (Tensor4.const 1 8 16 4 7)
     (Tensor4.const 1 8 16 4 9) (Tensor4.const 1 8 16 4 2) (fun _ x => x)
     (fun _ _ x => x) 0 (by norm_num) 1 (by norm_num) (by norm_num) 0 0 0 0
     (by decide)⟩

/-! ## Extend reassembly (claim C1) -/

theorem max_infer_fame_length_eq : max_infer_fame_length = 2583 := by
  norm_num [max_infer_fame_length, truncQ]

/-- C1 (code bug): a concrete extend run — a 2500-frame source extended
on the right to frame 2600, overflowing `max_infer_fame_length = 2583`
— caches a left slice (`to_left_pad_gt_latents` is set) and no right
slice; the reassembly step (lines 1054–1062) then evaluates
`torch.cat([to_right_pad_gt_latents, target_latents], dim=0)` with
`to_right_pad_gt_latents = None`, which raises (modelled as `none`)
instead of reattaching the cached left slice along the frame axis as
the claim states.  (When both caches exist, the same line concatenates
the wrong tensor along the batch axis.) -/
theorem extend_reassembly_left_cache_bug :
    is_extend_flag 0 2600 2500 = true ∧
    (extend_setup (Tensor4.const 1 8 16 2500 1) (Tensor4.const 1 8 16 2500 2)
        (Tensor4.const 1 8 16 2500 3) 0 2600).to_left_pad_gt_latents.isSome = true ∧
    (extend_setup (Tensor4.const 1 8 16 2500 1) (Tensor4.const 1 8 16 2500 2)
        (Tensor4.const 1 8 16 2500 3) 0 2600).to_right_pad_gt_latents = Option.none ∧
    extend_reassembly
      (extend_setup (Tensor4.const 1 8 16 2500 1) (Tensor4.const 1 8 16 2500 2)
        (Tensor4.const 1 8 16 2500 3) 0 2600).target_latents
      (extend_setup (Tensor4.const 1 8 16 2500 1) (Tensor4.const 1 8 16 2500 2)
        (Tensor4.const 1 8 16 2500 3) 0 2600).to_right_pad_gt_latents
      (extend_setup (Tensor4.const 1 8 16 2500 1) (Tensor4.const 1 8 16 2500 2)
        (Tensor4.const 1 8 16 2500 3) 0 2600).to_left_pad_gt_latents = Option.none := by
  refine ⟨by decide, ?_, ?_, ?_⟩ <;>
    simp only [extend_setup, max_infer_fame_length_eq, Tensor4.const_frame] <;>
    norm_num [extend_reassembly]

end AceStep
